import Mathlib

/-!
Shallow embedding of the HoloCommerce backend (src/main.py): the product query
engine (list_products), single product lookup (get_product), category index
(get_categories) and the session cart store (get_cart, upsert_cart), over a
document store modelled as explicit state.  The nullable module-level handle
`db` of main.py is modelled as an `Option DB` argument: `none` is the
store-unavailable state the endpoints branch on (`if db is None`).  Float
fields (price, rating) are modelled as rationals; the endpoints only build and
compare these values, so ordered-field comparisons are the only semantics
needed.  Mongo `$regex` with `$options: "i"` is modelled as case-insensitive
substring containment, faithful for the metacharacter-free patterns at issue.
-/

/-- Product document as stored in the `product` collection.  The store key
`_id` is modelled as the string `oid` (its canonical lowercase-hex rendering).
Fields never consulted by endpoint logic (image, gallery, colors, materials,
model_url) are omitted; the fields below are the ones the query engine filters
or sorts on, plus the passthrough payload. -/
structure Product where
  oid : String
  title : String
  description : String
  price : Rat
  category : String
  in_stock : Bool
  rating : Rat
  featured : Bool
  tags : List String
deriving Repr, DecidableEq

/-- Normalized API-facing product: `doc["id"] = str(doc.pop("_id"))`
(main.py lines 221 and 236); every other field passes through unchanged. -/
structure ProductOut where
  id : String
  title : String
  description : String
  price : Rat
  category : String
  in_stock : Bool
  rating : Rat
  featured : Bool
  tags : List String
deriving Repr, DecidableEq

/-- Renaming of the internal store key to the public `id` field. -/
def normalizeProduct (p : Product) : ProductOut :=
  { id := p.oid, title := p.title, description := p.description,
    price := p.price, category := p.category, in_stock := p.in_stock,
    rating := p.rating, featured := p.featured, tags := p.tags }

/-- CartItem request model (main.py lines 22-24). -/
structure CartItem where
  product_id : String
  quantity : Int
deriving Repr, DecidableEq

/-- Cart request model (main.py lines 26-28). -/
structure Cart where
  session_id : String
  items : List CartItem
deriving Repr, DecidableEq

/-- Cart document as stored in the `cart` collection: the inserted payload
plus the store-generated key `_id`, modelled as the string `oid`. -/
structure StoredCart where
  oid : String
  session_id : String
  items : List CartItem
deriving Repr, DecidableEq

/-- Document store state: the two collections the endpoints touch, plus a
counter from which fresh store keys are generated.  `find` and `find_one`
scan in natural (insertion) order, which the list order models. -/
structure DB where
  products : List Product
  carts : List StoredCart
  nextKey : Nat
deriving Repr, DecidableEq

/-- ASCII lowering on code points, as the case-insensitive regex flag applies
it to the hex/ASCII data at issue. -/
def lowerNat (n : Nat) : Nat :=
  if 65 ≤ n ∧ n ≤ 90 then n + 32 else n

/-- Boolean case-insensitive prefix test on character lists. -/
def isPrefixCI : List Char → List Char → Bool
  | [], _ => true
  | _ :: _, [] => false
  | a :: as, b :: bs => (lowerNat a.toNat == lowerNat b.toNat) && isPrefixCI as bs

/-- Boolean case-insensitive substring test on character lists. -/
def isSubstrCI (needle : List Char) : List Char → Bool
  | [] => isPrefixCI needle []
  | b :: bs => isPrefixCI needle (b :: bs) || isSubstrCI needle bs

/-- Mongo `{"$regex": pat, "$options": "i"}` applied to a string field,
modelled as case-insensitive substring search (faithful for patterns without
regex metacharacters; the spec reads the filter as substring matching). -/
def regexMatchCI (pat text : String) : Bool :=
  isSubstrCI pat.toList text.toList

/-- Boolean case-insensitive equality of strings, used to model ObjectId
equality: bson parses the 24 hex characters case-insensitively and compares
the resulting bytes, and stored keys render as lowercase hex. -/
def strEqCI (a b : String) : Bool :=
  isPrefixCI a.toList b.toList && isPrefixCI b.toList a.toList

/-- Query filter built by list_products (main.py lines 192-209), mirrored
field by field: the optional text disjunction, the category equality, the two
price bounds and the featured equality. -/
structure Filt where
  qOr : Option String
  category : Option String
  priceGte : Option Rat
  priceLte : Option Rat
  featured : Option Bool
deriving Repr, DecidableEq

/-- Filter construction of list_products.  `if q:` and `if category:` are
Python truthiness tests on optional strings: None and the empty string are
both falsy, so an empty-string parameter adds no condition.  `featured` is
tested with `is not None`, an exact presence test. -/
def buildFilt (q category : Option String) (min_price max_price : Option Rat)
    (featured : Option Bool) : Filt :=
  { qOr := match q with
      | some s => if s.isEmpty then none else some s
      | none => none
    category := match category with
      | some s => if s.isEmpty then none else some s
      | none => none
    priceGte := min_price
    priceLte := max_price
    featured := featured }

/-- Satisfaction of the filter by a stored product: the conjunction of the
present conditions; the text condition is the `$or` over title, description
and tags (a regex on the array field `tags` matches when some element
matches). -/
def matchesFilt (f : Filt) (p : Product) : Bool :=
  (match f.qOr with
    | none => true
    | some s => regexMatchCI s p.title || regexMatchCI s p.description ||
        p.tags.any (fun t => regexMatchCI s t)) &&
  (match f.category with
    | none => true
    | some c => p.category == c) &&
  (match f.priceGte with
    | none => true
    | some m => decide (m ≤ p.price)) &&
  (match f.priceLte with
    | none => true
    | some m => decide (p.price ≤ m)) &&
  (match f.featured with
    | none => true
    | some b => p.featured == b)

/-- Sort application of list_products (main.py lines 212-217): three
recognized values compared against the optional parameter; any other value,
including absence, leaves the natural order unchanged.  mergeSort is stable,
so natural order breaks ties. -/
def applySort (sort : Option String) (l : List Product) : List Product :=
  if sort = some "price_asc" then l.mergeSort (fun a b => decide (a.price ≤ b.price))
  else if sort = some "price_desc" then l.mergeSort (fun a b => decide (b.price ≤ a.price))
  else if sort = some "rating_desc" then l.mergeSort (fun a b => decide (b.rating ≤ a.rating))
  else l

/-- Response shape of the product listing endpoint. -/
structure ProductsResponse where
  items : List ProductOut
  total : Nat
deriving Repr, DecidableEq

/-- list_products endpoint (main.py lines 181-223): an unavailable store
degrades to the empty response; otherwise filter, sort, truncate to `limit`,
normalize, and report `total` as the length of the returned page.  FastAPI
validates `limit` into [1, 200] and the price bounds to be nonnegative before
the body runs; theorems carry those bounds as hypotheses where relevant. -/
def list_products (db : Option DB) (q category : Option String)
    (min_price max_price : Option Rat) (featured : Option Bool)
    (sort : Option String) (limit : Nat) : ProductsResponse :=
  match db with
  | none => { items := [], total := 0 }
  | some d =>
    let filt := buildFilt q category min_price max_price featured
    let matched := d.products.filter (fun p => matchesFilt filt p)
    let sorted := applySort sort matched
    let items := (sorted.take limit).map normalizeProduct
    { items := items, total := items.length }

/-- Outcome of an endpoint that can raise HTTPException: either a value or an
HTTP error with status code and detail string. -/
inductive HttpResult (α : Type) where
  | ok : α → HttpResult α
  | error : Nat → String → HttpResult α
deriving Repr, DecidableEq

/-- Well-formedness of a string as a bson ObjectId: 24 hexadecimal
characters.  (bytes.fromhex also tolerates interior blanks, but such strings
parse to keys no store ever issued, so they fall into the no-match branch
either way and the endpoint result is unaffected.) -/
def wellFormedObjectId (s : String) : Bool :=
  s.length == 24 && s.toList.all (fun c =>
    c.isDigit || (decide (97 ≤ c.toNat) && decide (c.toNat ≤ 102)) ||
      (decide (65 ≤ c.toNat) && decide (c.toNat ≤ 70)))

/-- get_product endpoint (main.py lines 226-237): an unavailable store, a
malformed id (ObjectId raises, swallowed into `doc = None`) and a well-formed
id matching no document all raise the same 404. -/
def get_product (db : Option DB) (product_id : String) : HttpResult ProductOut :=
  match db with
  | none => .error 404 "Product not found"
  | some d =>
    let doc := if wellFormedObjectId product_id then
        d.products.find? (fun p => strEqCI p.oid product_id)
      else none
    match doc with
    | none => .error 404 "Product not found"
    | some p => .ok (normalizeProduct p)

/-- Fixed fallback category list returned when the store is unavailable
(main.py line 243). -/
def fallbackCategories : List String :=
  ["Watches", "Wearables", "Tech", "Wallets", "Jewelry", "Eyewear"]

/-- Modelled from the spec: the distinct operation of the document-store
collaborator interface (spec section 6, `distinct(collection, field)`), which
returns each distinct value once in store-determined order; modelled as
first-occurrence order. -/
def distinctVals (l : List String) : List String :=
  l.foldl (fun acc v => if acc.contains v then acc else acc ++ [v]) []

/-- get_categories endpoint (main.py lines 240-245). -/
def get_categories (db : Option DB) : List String :=
  match db with
  | none => fallbackCategories
  | some d => distinctVals (d.products.map (fun p => p.category))

/-- Cart-shaped endpoint response: the `id` field is present exactly when a
stored document is behind the response; the empty-cart and unavailable-store
returns carry no `id` key, modelled as `none`. -/
structure CartResponse where
  id : Option String
  session_id : String
  items : List CartItem
deriving Repr, DecidableEq

/-- get_cart endpoint (main.py lines 249-257): the stored cart for the
session with the key exposed as `id`, or the empty cart when the store is
unavailable or holds no document for the session. -/
def get_cart (db : Option DB) (session_id : String) : CartResponse :=
  match db with
  | none => { id := none, session_id := session_id, items := [] }
  | some d =>
    match d.carts.find? (fun c => c.session_id == session_id) with
    | none => { id := none, session_id := session_id, items := [] }
    | some c => { id := some c.oid, session_id := c.session_id, items := c.items }

/-- Store-generated key for the n-th document inserted into a store state. -/
def freshKey (n : Nat) : String := "key" ++ toString n

/-- Mongo `update_one` with an `_id` filter and an items `$set` (main.py line
267): rewrites the items list of the first document carrying the given key
(a real store holds at most one, keys being unique). -/
def updateByOid (oid : String) (items : List CartItem) : List StoredCart → List StoredCart
  | [] => []
  | c :: cs =>
    if c.oid = oid then { c with items := items } :: cs
    else c :: updateByOid oid items cs

/-- Modelled from the spec: create_document lives in database.py, which is
not among the sources; per the collaborator interface of spec section 6
(`insert(collection, doc) -> key`) it stores the document under a fresh
store-generated key and returns that key. -/
def create_document (d : DB) (cart : Cart) : String × DB :=
  let key := freshKey d.nextKey
  (key,
    { d with
      carts := d.carts ++ [{ oid := key, session_id := cart.session_id, items := cart.items }]
      nextKey := d.nextKey + 1 })

/-- upsert_cart endpoint (main.py lines 260-274), returning the response body
and the store state after the call.  An unavailable store echoes the payload
back without any write (`return cart.model_dump()`, no `id` key); otherwise
the first document for the session is looked up, and the call branches to a
whole-list `$set` of its items (identity preserved) or to an insert. -/
def upsert_cart (db : Option DB) (cart : Cart) : CartResponse × Option DB :=
  match db with
  | none => ({ id := none, session_id := cart.session_id, items := cart.items }, none)
  | some d =>
    match d.carts.find? (fun c => c.session_id == cart.session_id) with
    | some existing =>
      ({ id := some existing.oid, session_id := existing.session_id, items := cart.items },
        some { d with carts := updateByOid existing.oid cart.items d.carts })
    | none =>
      let r := create_document d cart
      ({ id := some r.1, session_id := cart.session_id, items := cart.items }, some r.2)

/-- Concrete store fixture: the six demo products of the seeder (main.py
lines 37-131), under invented canonical store keys, with the float literals
read as rationals.  Used only as a concrete instance in witnesses. -/
def seedProducts : List Product :=
  [{ oid := "65a0000000000000000000a1", title := "Aether Chrono X1",
     description := "Premium titanium watch with sapphire crystal, neon lume, and quantum-precision movement.",
     price := 1299, category := "Watches", in_stock := true, rating := 49/10,
     featured := true, tags := ["chrono", "luxury", "neon"] },
   { oid := "65a0000000000000000000a2", title := "Nebula Wallet Pro",
     description := "Slim carbon-fiber wallet with RFID shield and magnetic quick-access.",
     price := 189, category := "Wallets", in_stock := true, rating := 47/10,
     featured := true, tags := ["rfid", "slim"] },
   { oid := "65a0000000000000000000a3", title := "Flux Rings Set",
     description := "Stackable rings with iridescent finish and subtle lumen edge.",
     price := 129, category := "Jewelry", in_stock := true, rating := 46/10,
     featured := false, tags := ["rings", "iridescent"] },
   { oid := "65a0000000000000000000a4", title := "Spectra AR Shades",
     description := "Next-gen eyewear with polarized optics and AR-ready frame.",
     price := 349, category := "Eyewear", in_stock := true, rating := 45/10,
     featured := true, tags := ["ar", "polarized"] },
   { oid := "65a0000000000000000000a5", title := "Pulse Band S",
     description := "Holographic wearable with health telemetry and soft neon glow.",
     price := 499, category := "Wearables", in_stock := true, rating := 44/10,
     featured := false, tags := ["health", "wearable"] },
   { oid := "65a0000000000000000000a6", title := "Ion Dock +",
     description := "Minimal magnetic charger with soft white halo illumination.",
     price := 89, category := "Tech", in_stock := true, rating := 43/10,
     featured := false, tags := ["charger", "dock"] }]

/-- Concrete store fixture holding the seed products and no carts. -/
def seedDB : DB := { products := seedProducts, carts := [], nextKey := 0 }

/-- Concrete store fixture with no documents at all. -/
def emptyDB : DB := { products := [], carts := [], nextKey := 0 }

/-- Concrete store fixture holding one cart for session S, as left by a first
upsert of item p1 against the empty store. -/
def demoCartDB : DB :=
  { products := [], carts := [{ oid := "key0", session_id := "S", items := [⟨"p1", 2⟩] }],
    nextKey := 1 }

/-- Defining equation of updateByOid on a cons cell. -/
theorem updateByOid_cons (o : String) (i : List CartItem) (c : StoredCart)
    (cs : List StoredCart) :
    updateByOid o i (c :: cs) =
      if c.oid = o then { c with items := i } :: cs else c :: updateByOid o i cs := rfl

/-- Unfolding of find? for the session predicate on a cons cell. -/
theorem find?_session_cons (s : String) (c : StoredCart) (cs : List StoredCart) :
    (c :: cs).find? (fun x => x.session_id == s) =
      if c.session_id == s then some c else cs.find? (fun x => x.session_id == s) := by
  cases h : c.session_id == s <;> simp [List.find?_cons, h]

/-- Rewriting the items of one cart document changes no store key. -/
theorem updateByOid_map_oid (o : String) (i : List CartItem) (l : List StoredCart) :
    (updateByOid o i l).map StoredCart.oid = l.map StoredCart.oid := by
  induction l with
  | nil => rfl
  | cons c cs ih =>
    rw [updateByOid_cons]
    by_cases hc : c.oid = o
    · simp [hc]
    · simp [hc, ih]

/-- Rewriting the items of one cart document creates no document for a
session that had none. -/
theorem find?_updateByOid_none (s o : String) (i : List CartItem) (l : List StoredCart)
    (h : l.find? (fun c => c.session_id == s) = none) :
    (updateByOid o i l).find? (fun c => c.session_id == s) = none := by
  induction l with
  | nil => exact h
  | cons c cs ih =>
    rw [find?_session_cons] at h
    by_cases h1 : (c.session_id == s) = true
    · rw [if_pos h1] at h
      exact Option.noConfusion h
    · rw [if_neg h1] at h
      rw [updateByOid_cons]
      by_cases hc : c.oid = o
      · rw [if_pos hc]
        simp only [find?_session_cons]
        simpa [h1] using h
      · rw [if_neg hc]
        rw [find?_session_cons, if_neg h1]
        exact ih h

/-- Rewriting the items of the first document found for a session, addressed
by its store key, leaves that document the first find for the session, now
carrying the new items; store keys are pairwise distinct, as a real store
guarantees for generated keys. -/
theorem find?_updateByOid_first (s : String) (i : List CartItem) (l : List StoredCart)
    (e : StoredCart) (hnd : (l.map StoredCart.oid).Nodup)
    (hf : l.find? (fun c => c.session_id == s) = some e) :
    (updateByOid e.oid i l).find? (fun c => c.session_id == s) =
      some { e with items := i } := by
  induction l with
  | nil => exact Option.noConfusion hf
  | cons c cs ih =>
    rw [List.map_cons, List.nodup_cons] at hnd
    rw [find?_session_cons] at hf
    by_cases h1 : (c.session_id == s) = true
    · rw [if_pos h1] at hf
      injection hf with hce
      cases hce
      rw [updateByOid_cons, if_pos rfl]
      simp only [find?_session_cons]
      simp [h1]
    · rw [if_neg h1] at hf
      have hmem : e ∈ cs := List.mem_of_find?_eq_some hf
      have hne : ¬(c.oid = e.oid) := fun hco =>
        hnd.1 (hco ▸ List.mem_map_of_mem StoredCart.oid hmem)
      rw [updateByOid_cons, if_neg hne, find?_session_cons, if_neg h1]
      exact ih hnd.2 hf

/-- Rewriting items by store key distributes over an append: it lands in the
left part exactly when the left part holds the key. -/
theorem updateByOid_append (o : String) (i : List CartItem) (l1 l2 : List StoredCart) :
    updateByOid o i (l1 ++ l2) =
      if l1.any (fun c => c.oid == o) then updateByOid o i l1 ++ l2
      else l1 ++ updateByOid o i l2 := by
  induction l1 with
  | nil => simp
  | cons c cs ih =>
    rw [List.cons_append, updateByOid_cons, updateByOid_cons, ih]
    by_cases hc : c.oid = o
    · simp [hc]
    · by_cases h2 : cs.any (fun x => x.oid == o) = true
      · simp [hc, h2]
      · simp [hc, h2]

/-- C2: for every valid limit in [1, 200] and any combination of the other
filter parameters, list_products returns at most limit items and the total
field equals the number of items actually returned (the post-limit count). -/
theorem list_products_le_limit_total (db : Option DB) (q category : Option String)
    (min_price max_price : Option Rat) (featured : Option Bool)
    (sort : Option String) (limit : Nat) (h1 : 1 ≤ limit) (h2 : limit ≤ 200) :
    (list_products db q category min_price max_price featured sort limit).items.length ≤ limit ∧
    (list_products db q category min_price max_price featured sort limit).total =
      (list_products db q category min_price max_price featured sort limit).items.length := by
  cases db with
  | none => exact ⟨Nat.zero_le _, rfl⟩
  | some d =>
    refine ⟨?_, rfl⟩
    simp only [list_products, List.length_map, List.length_take]
    exact min_le_left _ _

/-- Witness for C2 at a concrete request. -/
theorem list_products_le_limit_total_witness :
    1 ≤ 50 ∧ 50 ≤ 200 ∧
    ((list_products (some seedDB) (some "neon") none none none none
        (some "rating_desc") 50).items.length ≤ 50 ∧
      (list_products (some seedDB) (some "neon") none none none none
        (some "rating_desc") 50).total =
        (list_products (some seedDB) (some "neon") none none none none
          (some "rating_desc") 50).items.length) :=
  ⟨by decide, by decide,
    list_products_le_limit_total (some seedDB) (some "neon") none none none none
      (some "rating_desc") 50 (by decide) (by decide)⟩

/-- C4: get_categories on the unavailable store (the degraded mode) returns
exactly the fixed six-entry fallback list of category names, not an error. -/
theorem get_categories_unavailable_fallback :
    get_categories none = fallbackCategories ∧ (get_categories none).length = 6 :=
  ⟨rfl, rfl⟩

/-- C5: whenever both price bounds are present and min_price exceeds
max_price, list_products executes and returns the empty response with total
zero, for every store state and every combination of the other parameters. -/
theorem list_products_inverted_range (db : Option DB) (q category : Option String)
    (m M : Rat) (featured : Option Bool) (sort : Option String) (limit : Nat)
    (h : M < m) :
    list_products db q category (some m) (some M) featured sort limit =
      { items := [], total := 0 } := by
  cases db with
  | none => rfl
  | some d =>
    have hfilter : d.products.filter
        (fun p => matchesFilt (buildFilt q category (some m) (some M) featured) p) = [] := by
      rw [List.filter_eq_nil_iff]
      intro p _
      simp only [matchesFilt, buildFilt, Bool.and_eq_true, decide_eq_true_eq]
      intro hall
      exact absurd (le_trans hall.1.1.2 hall.1.2) (not_le.mpr h)
    simp [list_products, hfilter, applySort]

/-- Witness for C5: the inverted range 500..100 against the seeded store. -/
theorem list_products_inverted_range_witness :
    (100 : Rat) < 500 ∧
    list_products (some seedDB) none none (some 500) (some 100) none none 50 =
      { items := [], total := 0 } :=
  ⟨by decide,
    list_products_inverted_range (some seedDB) none none 500 100 none none 50 (by decide)⟩

/-- C7: list_products with an unrecognized sort value returns exactly the
same response as the identical request with sort absent, for every store
state and parameter combination; the value is silently ignored. -/
theorem list_products_unrecognized_sort (db : Option DB) (q category : Option String)
    (min_price max_price : Option Rat) (featured : Option Bool) (s : String)
    (limit : Nat) (h1 : s ≠ "price_asc") (h2 : s ≠ "price_desc")
    (h3 : s ≠ "rating_desc") :
    list_products db q category min_price max_price featured (some s) limit =
      list_products db q category min_price max_price featured none limit := by
  cases db with
  | none => rfl
  | some d =>
    have hs : ∀ l : List Product, applySort (some s) l = applySort none l := by
      intro l
      simp [applySort, h1, h2, h3]
    simp only [list_products, hs]

/-- Witness for C7 at the unrecognized value "newest". -/
theorem list_products_unrecognized_sort_witness :
    ("newest" ≠ "price_asc" ∧ "newest" ≠ "price_desc" ∧ "newest" ≠ "rating_desc") ∧
    list_products (some seedDB) none none none none none (some "newest") 50 =
      list_products (some seedDB) none none none none none none 50 :=
  ⟨⟨by decide, by decide, by decide⟩,
    list_products_unrecognized_sort (some seedDB) none none none none none "newest" 50
      (by decide) (by decide) (by decide)⟩

/-- C10: an empty-string q and an empty-string category are treated exactly
like an absent parameter: the corresponding filter is only applied for a
non-empty string, so the same response results. -/
theorem list_products_empty_string_params (db : Option DB) (q category : Option String)
    (min_price max_price : Option Rat) (featured : Option Bool)
    (sort : Option String) (limit : Nat) :
    (list_products db (some "") category min_price max_price featured sort limit =
      list_products db none category min_price max_price featured sort limit) ∧
    (list_products db q (some "") min_price max_price featured sort limit =
      list_products db q none min_price max_price featured sort limit) := by
  constructor <;> cases db <;> rfl

/-- C3 counterexample: with the store unavailable, upsert_cart does not reach
any store operation and does not surface any failure; it returns the plain
payload echo (no id field) with the store untouched. -/
theorem upsert_cart_unavailable_counterexample :
    upsert_cart none { session_id := "S", items := [{ product_id := "p1", quantity := 2 }] } =
      ({ id := none, session_id := "S", items := [{ product_id := "p1", quantity := 2 }] },
        none) :=
  rfl

/-- C3 amended: when the store is unavailable, upsert_cart skips the write
entirely and returns the request payload unchanged and without an id — the
write path degrades softly, exactly like the read paths. -/
theorem upsert_cart_unavailable_soft (cart : Cart) :
    upsert_cart none cart =
      ({ id := none, session_id := cart.session_id, items := cart.items }, none) :=
  rfl

/-- C6: a string that is not a well-formed store key and a well-formed key
matching no stored product fail with the same NotFound condition, the 404
with detail Product not found; the two cases are indistinguishable. -/
theorem get_product_notfound_indistinguishable (db : Option DB) (s1 s2 : String)
    (h1 : wellFormedObjectId s1 = false)
    (h2 : wellFormedObjectId s2 = true)
    (h3 : ∀ d, db = some d → d.products.find? (fun p => strEqCI p.oid s2) = none) :
    get_product db s1 = .error 404 "Product not found" ∧
    get_product db s2 = .error 404 "Product not found" := by
  cases db with
  | none => exact ⟨rfl, rfl⟩
  | some d =>
    constructor
    · simp [get_product, h1]
    · simp [get_product, h2, h3 d rfl]

/-- Witness for C6: a malformed id and an unissued well-formed id against the
seeded store. -/
theorem get_product_notfound_indistinguishable_witness :
    wellFormedObjectId "not-a-valid-object-id" = false ∧
    wellFormedObjectId "65a0000000000000000000b9" = true ∧
    (get_product (some seedDB) "not-a-valid-object-id" = .error 404 "Product not found" ∧
      get_product (some seedDB) "65a0000000000000000000b9" = .error 404 "Product not found") :=
  ⟨by decide, by decide,
    get_product_notfound_indistinguishable (some seedDB)
      "not-a-valid-object-id" "65a0000000000000000000b9" (by decide) (by decide)
      (fun d hd => by injection hd with h; cases h; decide)⟩

/-- C8: for a session with no stored cart, get_cart returns the zero-value
cart with the session id and empty items (also when the store is
unavailable), never an error; when a cart exists it is returned with the
internal key exposed as id. -/
theorem get_cart_zero_value (db : Option DB) (s : String) :
    (db = none → get_cart db s = { id := none, session_id := s, items := [] }) ∧
    (∀ d, db = some d → d.carts.find? (fun c => c.session_id == s) = none →
      get_cart db s = { id := none, session_id := s, items := [] }) ∧
    (∀ d e, db = some d → d.carts.find? (fun c => c.session_id == s) = some e →
      get_cart db s = { id := some e.oid, session_id := e.session_id, items := e.items }) := by
  refine ⟨?_, ?_, ?_⟩
  · rintro rfl
    rfl
  · rintro d rfl hf
    simp [get_cart, hf]
  · rintro d e rfl hf
    simp [get_cart, hf]

/-- Witness for C8: a session without a cart and one with a cart, against a
store holding a single cart document. -/
theorem get_cart_zero_value_witness :
    get_cart (some demoCartDB) "T" = { id := none, session_id := "T", items := [] } ∧
    get_cart (some demoCartDB) "S" =
      { id := some "key0", session_id := "S", items := [⟨"p1", 2⟩] } :=
  ⟨(get_cart_zero_value (some demoCartDB) "T").2.1 demoCartDB rfl (by decide),
    (get_cart_zero_value (some demoCartDB) "S").2.2 demoCartDB
      ⟨"key0", "S", [⟨"p1", 2⟩]⟩ rfl (by decide)⟩

/-- C1: for a session that already has a stored cart, upsert_cart overwrites
the stored items list entirely with the new items — no merging with earlier
items — and preserves the identity of the existing cart, returning the same
id as before; afterwards get_cart for the session yields exactly the new
items.  Store keys are pairwise distinct, as a real store guarantees. -/
theorem upsert_cart_full_replace (d : DB) (s : String) (e : StoredCart)
    (items : List CartItem)
    (hnd : (d.carts.map StoredCart.oid).Nodup)
    (hf : d.carts.find? (fun c => c.session_id == s) = some e) :
    (upsert_cart (some d) { session_id := s, items := items }).1.id = some e.oid ∧
    (get_cart (upsert_cart (some d) { session_id := s, items := items }).2 s).items =
      items := by
  have h2 := find?_updateByOid_first s items d.carts e hnd hf
  constructor
  · simp [upsert_cart, hf]
  · simp [upsert_cart, get_cart, hf, h2]

/-- Witness for C1: upserting item p1 and then item p2 for session S against
the empty store leaves the cart for S with exactly the single item p2, under
the same id key0 that the first upsert created. -/
theorem upsert_cart_full_replace_witness :
    ((upsert_cart (some emptyDB) { session_id := "S", items := [⟨"p1", 2⟩] }).2 =
        some demoCartDB) ∧
    (demoCartDB.carts.map StoredCart.oid).Nodup ∧
    (demoCartDB.carts.find? (fun c => c.session_id == "S") =
        some ⟨"key0", "S", [⟨"p1", 2⟩]⟩) ∧
    ((upsert_cart (some demoCartDB) { session_id := "S", items := [⟨"p2", 1⟩] }).1.id =
        some "key0" ∧
      (get_cart (upsert_cart (some demoCartDB)
          { session_id := "S", items := [⟨"p2", 1⟩] }).2 "S").items = [⟨"p2", 1⟩]) :=
  ⟨by decide, by decide, by decide,
    upsert_cart_full_replace demoCartDB "S" ⟨"key0", "S", [⟨"p1", 2⟩]⟩ [⟨"p2", 1⟩]
      (by decide) (by decide)⟩

/-- C9: upsert_cart is idempotent: performing the identical upsert payload
twice yields the same observable cart state for the session — the same
get_cart response — after either call, for every starting store state (store
keys pairwise distinct, as a real store guarantees) and also with the store
unavailable. -/
theorem upsert_cart_idempotent (db : Option DB) (s : String) (items : List CartItem)
    (hnd : ∀ d, db = some d → (d.carts.map StoredCart.oid).Nodup) :
    get_cart (upsert_cart (upsert_cart db { session_id := s, items := items }).2
        { session_id := s, items := items }).2 s =
      get_cart (upsert_cart db { session_id := s, items := items }).2 s := by
  cases db with
  | none => rfl
  | some d =>
    have hnd1 := hnd d rfl
    cases hf : d.carts.find? (fun c => c.session_id == s) with
    | some e =>
      have h1 := find?_updateByOid_first s items d.carts e hnd1 hf
      have hnd2 : ((updateByOid e.oid items d.carts).map StoredCart.oid).Nodup := by
        rw [updateByOid_map_oid]
        exact hnd1
      have h2 := find?_updateByOid_first s items (updateByOid e.oid items d.carts)
        { e with items := items } hnd2 h1
      simp [upsert_cart, get_cart, hf, h1, h2]
    | none =>
      have hc0 : ([({ oid := freshKey d.nextKey, session_id := s, items := items } :
          StoredCart)]).find? (fun c => c.session_id == s) =
          some { oid := freshKey d.nextKey, session_id := s, items := items } := by
        simp [List.find?_cons]
      have hnone : (updateByOid (freshKey d.nextKey) items d.carts).find?
          (fun c => c.session_id == s) = none :=
        find?_updateByOid_none s (freshKey d.nextKey) items d.carts hf
      by_cases hmem : d.carts.any (fun c => c.oid == freshKey d.nextKey) = true
      · have hupd : updateByOid (freshKey d.nextKey) items
            (d.carts ++ [({ oid := freshKey d.nextKey, session_id := s, items := items } :
              StoredCart)]) =
            updateByOid (freshKey d.nextKey) items d.carts ++
              [{ oid := freshKey d.nextKey, session_id := s, items := items }] := by
          rw [updateByOid_append, if_pos hmem]
        simp [upsert_cart, get_cart, create_document, hf, hupd, List.find?_append,
          hnone, hc0]
      · have hupd : updateByOid (freshKey d.nextKey) items
            (d.carts ++ [({ oid := freshKey d.nextKey, session_id := s, items := items } :
              StoredCart)]) =
            d.carts ++ [{ oid := freshKey d.nextKey, session_id := s, items := items }] := by
          rw [updateByOid_append, if_neg hmem, updateByOid_cons, if_pos rfl]
        simp [upsert_cart, get_cart, create_document, hf, hupd, List.find?_append, hc0]

/-- Witness for C9: the identical payload upserted twice against the empty
store. -/
theorem upsert_cart_idempotent_witness :
    get_cart (upsert_cart (upsert_cart (some emptyDB)
        { session_id := "S", items := [⟨"p1", 2⟩] }).2
        { session_id := "S", items := [⟨"p1", 2⟩] }).2 "S" =
      get_cart (upsert_cart (some emptyDB) { session_id := "S", items := [⟨"p1", 2⟩] }).2 "S" :=
  upsert_cart_idempotent (some emptyDB) "S" [⟨"p1", 2⟩]
    (fun d hd => by injection hd with h; cases h; decide)
